import Mathlib

/- Verification development for the PayPal exchange calculator
(calculadora_paypal_gui.py).  The fee tables, the fee calculation of
CalculatorModel.perform_calculation, the rate service
ApiService.get_exchange_rate / ApiService._fetch_rate and the controller
dispatch are embedded as executable Lean definitions over exact rationals;
money arithmetic in the source uses Python floats, modelled here by the
exact real (rational) values of the decimal literals involved. -/

/- Fee configuration (section 0 of the source). -/

/-- A fee schedule as stored in the PAYPAL_FEES dictionary: fields
fee_percent, fixed_fee, spread_percent, in that order, all given as
percentages exactly as in the source. -/
structure FeeSchedule where
  fee_percent : ℚ
  fixed_fee : ℚ
  spread_percent : ℚ
deriving DecidableEq

/-- The PAYPAL_FEES dictionary of the source: six explicitly listed
currencies. -/
def PAYPAL_FEES (moeda : String) : Option FeeSchedule :=
  if moeda = "USD" then some ⟨6.40, 0.30, 3.50⟩
  else if moeda = "EUR" then some ⟨6.40, 0.35, 3.50⟩
  else if moeda = "GBP" then some ⟨6.40, 0.20, 3.50⟩
  else if moeda = "JPY" then some ⟨6.40, 40.00, 3.50⟩
  else if moeda = "CAD" then some ⟨6.40, 0.30, 3.50⟩
  else if moeda = "AUD" then some ⟨6.40, 0.30, 3.50⟩
  else none

/-- DEFAULT_FEES of the source, used for currencies not listed in
PAYPAL_FEES. -/
def DEFAULT_FEES : FeeSchedule := ⟨6.40, 0.30, 4.50⟩

/-- The lookup PAYPAL_FEES.get(moeda, DEFAULT_FEES) performed in
perform_calculation. -/
def getFees (moeda : String) : FeeSchedule :=
  (PAYPAL_FEES moeda).getD DEFAULT_FEES

/-- The ordered currency list offered by the currency selector:
list(PAYPAL_FEES.keys()) in insertion order of the source dictionary. -/
def currency_list : List String := ["USD", "EUR", "GBP", "JPY", "CAD", "AUD"]

/-- Modelled from the spec: the repository wires currency selection to a
read-only combobox over list(PAYPAL_FEES.keys()); no explicit cycling routine
appears in the source, so requestCurrencyCycle is modelled from the spec
words: advance to the next currency in the fixed ordered list, wrapping
around, i.e. the index step (i + 1) mod length. -/
def requestCurrencyCycle (i : Nat) : Nat :=
  (i + 1) % currency_list.length

/- A model of CPython float() on plain decimal / exponent strings, as used by
float(self.valor_str.get().replace(",", ".")) in the source.  Written with
structural recursion over character lists so that concrete inputs evaluate
inside the kernel.  Infinities, NaN and digit-group underscores are outside
the modelled input domain (they are not producible by the calculator UI). -/

/-- Strip leading and trailing whitespace from a character list. -/
def stripChars (l : List Char) : List Char :=
  ((l.dropWhile Char.isWhitespace).reverse.dropWhile Char.isWhitespace).reverse

/-- Split a character list at every occurrence of the separator. -/
def splitChar (sep : Char) : List Char → List (List Char)
  | [] => [[]]
  | c :: cs =>
    let rest := splitChar sep cs
    if c = sep then [] :: rest
    else
      match rest with
      | [] => [[c]]
      | r :: rs => (c :: r) :: rs

/-- Numeric value of a list of decimal digit characters. -/
def digitsVal (l : List Char) : Nat :=
  l.foldl (fun a c => a * 10 + (c.toNat - 48)) 0

/-- Parse a non-empty all-digit character list as a natural number. -/
def parseNatDigits (l : List Char) : Option Nat :=
  if l.isEmpty then none
  else if l.all Char.isDigit then some (digitsVal l) else none

/-- Parse the exponent part of a float literal: an optional sign followed by
digits. -/
def parseExpPart (l : List Char) : Option Int :=
  match l with
  | '-' :: rest => (parseNatDigits rest).map (fun n => -(n : Int))
  | '+' :: rest => (parseNatDigits rest).map (fun n => (n : Int))
  | _ => (parseNatDigits l).map (fun n => (n : Int))

/-- Parse the mantissa of a float literal: digits with at most one decimal
point and at least one digit overall. -/
def parseMantissaPart (l : List Char) : Option ℚ :=
  match splitChar '.' l with
  | [i] => (parseNatDigits i).map (fun n => (n : ℚ))
  | [i, f] =>
    if i.isEmpty && f.isEmpty then none
    else if i.all Char.isDigit && f.all Char.isDigit then
      some ((digitsVal (i ++ f) : ℚ) / (10 : ℚ) ^ f.length)
    else none
  | _ => none

/-- Parse an unsigned float literal: a mantissa optionally followed by an
exponent introduced by the letter e. -/
def parseSignedless (u : List Char) : Option ℚ :=
  match splitChar 'e' u with
  | [m] => parseMantissaPart m
  | [m, e] =>
    match parseMantissaPart m, parseExpPart e with
    | some q, some k => some (q * (10 : ℚ) ^ k)
    | _, _ => none
  | _ => none

/-- Model of Python float(s) on decimal / exponent strings: strip
whitespace, lower the case, consume an optional sign, then parse mantissa
and exponent.  On texts over the plain calculator alphabet (see
plainFloatText below) this returns none exactly when float(s) raises
ValueError; the named specials inf / infinity / nan and digit-group
underscores, which float() additionally accepts, lie outside that alphabet
and outside the rational model. -/
def pyFloat (s : String) : Option ℚ :=
  let t := (stripChars s.toList).map Char.toLower
  match t with
  | '-' :: u => (parseSignedless u).map (fun q => -q)
  | '+' :: u => parseSignedless u
  | u => parseSignedless u

/-- The source expression valor_str.replace(",", ".") (a single comma is the
only decimal separator the UI can produce, so character-wise replacement is
the same substitution). -/
def replaceCommaDot (s : String) : String :=
  String.mk (s.toList.map fun c => if c = ',' then '.' else c)

/-- The character set the calculator can ever place in the amount text:
ASCII digits, the decimal separators, the signs and exponent letter that
%.10g formatting can emit, and blanks.  On texts over this alphabet pyFloat
agrees with CPython float(); texts outside it (letters other than e, so in
particular the float() specials inf and nan, and underscore digit grouping)
are outside the modelled input domain. -/
def plainFloatText (s : String) : Bool :=
  s.toList.all fun c =>
    c.isDigit || c = '.' || c = ',' || c = '-' || c = '+' || c = 'e' || c = 'E' || c = ' '

/- The calculation core (CalculatorModel.perform_calculation). -/

/-- The values perform_calculation computes and hands to the display:
final amount in BRL, the net foreign amount, the currency and the effective
exchange rate after spread. -/
structure CalculationResult where
  valor_final_brl : ℚ
  valor_liquido : ℚ
  moeda : String
  cambio_final : ℚ
deriving DecidableEq

/-- Outcome of perform_calculation: either the invalid-input message written
to the details display, or a calculation result. -/
inductive CalcOutcome where
  | invalid (message : String)
  | ok (res : CalculationResult)
deriving DecidableEq

/-- The message set by perform_calculation when float() fails on the amount
text. -/
def invalidInputMsg : String := "Entrada inválida."

/-- The arithmetic body of perform_calculation, line for line:
tarifa_percentual and spread are the schedule percentages divided by 100,
valor_apos_taxas subtracts the percentage fee and the fixed fee,
valor_liquido clamps at zero, cambio_final applies the spread to the raw
rate, valor_final_brl converts. -/
def calc_with_fees (fees : FeeSchedule) (moeda : String) (valor exchange_rate : ℚ) :
    CalculationResult :=
  let tarifa_percentual := fees.fee_percent / 100
  let taxa_fixa := fees.fixed_fee
  let spread := fees.spread_percent / 100
  let valor_apos_taxas := valor - valor * tarifa_percentual - taxa_fixa
  let valor_liquido := max 0 valor_apos_taxas
  let cambio_final := exchange_rate * (1 - spread)
  let valor_final_brl := valor_liquido * cambio_final
  ⟨valor_final_brl, valor_liquido, moeda, cambio_final⟩

/-- CalculatorModel.perform_calculation: parse the amount text (comma
replaced by dot); on ValueError set the invalid-input message and stop;
otherwise look the fees up with PAYPAL_FEES.get(moeda, DEFAULT_FEES) and
compute.  Display formatting and history are UI concerns left out. -/
def perform_calculation (valor_str moeda : String) (exchange_rate : ℚ) : CalcOutcome :=
  match pyFloat (replaceCommaDot valor_str) with
  | none => CalcOutcome.invalid invalidInputMsg
  | some valor => CalcOutcome.ok (calc_with_fees (getFees moeda) moeda valor exchange_rate)

/-- Modelled from the spec: the source computes no loss figure; the spec
defines totalLossLocal as the difference between the amount converted at the
raw rate and the amount actually received. -/
def totalLossLocal (valor rawRate finalLocal : ℚ) : ℚ :=
  valor * rawRate - finalLocal

/- The rate service (ApiService). -/

/-- A message placed on the api_queue: exactly the dictionaries the source
puts there (the success message carries only the rate, the loading message
carries the currency, the error message carries the display text). -/
inductive QueueMsg where
  | success (rate : ℚ)
  | loading (currency : String)
  | error (message : String)
deriving DecidableEq

/-- What one call of ApiService.get_exchange_rate does synchronously: the
queue messages it emits, and whether it starts a background fetch thread. -/
structure GetRateResult where
  emitted : List QueueMsg
  fetchSpawned : Bool
deriving DecidableEq

/-- ApiService.get_exchange_rate: the local currency BRL short-circuits with
rate 1.0; a cached currency is answered from rate_cache; otherwise a loading
message is emitted and a background fetch is started.  The synchronous call
never writes the cache. -/
def get_exchange_rate (cache : String → Option ℚ) (currency : String) : GetRateResult :=
  if currency = "BRL" then ⟨[QueueMsg.success 1.0], false⟩
  else
    match cache currency with
    | some r => ⟨[QueueMsg.success r], false⟩
    | none => ⟨[QueueMsg.loading currency], true⟩

/-- The state the controller reads when a calculate action arrives: the
amount text, the selected currency and the current rate cache. -/
structure ControllerState where
  valor_str : String
  moeda : String
  cache : String → Option ℚ

/-- CalculatorController.handle_action on a calculate action: it calls
self.api.get_exchange_rate(self.model.moeda_var.get()) without looking at
the amount text (the same call also ends every _handle_key_press). -/
def handle_calculate (st : ControllerState) : GetRateResult :=
  get_exchange_rate st.cache st.moeda

/- The background fetch (ApiService._fetch_rate). -/

/-- A JSON value as decoded by response.json(). -/
inductive Json where
  | null
  | bool (b : Bool)
  | num (q : ℚ)
  | str (s : String)
  | arr (xs : List Json)
  | obj (fields : List (String × Json))

/-- The Python exceptions the fetch body can raise past requests itself. -/
inductive PyErr where
  | keyError
  | valueError
  | typeError
deriving DecidableEq

/-- Python subscription value[key] for a string key: a dictionary looks the
key up and raises KeyError when absent; every other JSON value raises
TypeError. -/
def Json.index (j : Json) (key : String) : Except PyErr Json :=
  match j with
  | .obj fields =>
    match fields.lookup key with
    | some v => Except.ok v
    | none => Except.error PyErr.keyError
  | _ => Except.error PyErr.typeError

/-- Python float() applied to a decoded JSON value: numbers and booleans
convert, strings parse (ValueError on failure), everything else raises
TypeError. -/
def pyFloatOfJson (j : Json) : Except PyErr ℚ :=
  match j with
  | .num q => Except.ok q
  | .bool b => Except.ok (if b then 1 else 0)
  | .str s =>
    match pyFloat s with
    | some q => Except.ok q
    | none => Except.error PyErr.valueError
  | _ => Except.error PyErr.typeError

/-- The expression float(data[currency + "BRL"]["bid"]) of the fetch body,
with the Python exception it raises, if any. -/
def classify (currency : String) (data : Json) : Except PyErr ℚ := do
  let quote ← data.index (currency ++ "BRL")
  let bid ← quote.index ("bid")
  pyFloatOfJson bid

/-- What requests.get produced: a transport-level failure (connection error,
timeout, too many redirects - all requests.RequestException), or a response
with a status code and a body; body none stands for a body that is not valid
JSON (response.json() raises a ValueError subclass). -/
inductive HttpResult where
  | transportError
  | response (status : Nat) (body : Option Json)

/-- An observable effect of the fetch thread: a write to rate_cache or a
message put on the api_queue, in program order. -/
inductive FetchEffect where
  | store (currency : String) (rate : ℚ)
  | put (msg : QueueMsg)
deriving DecidableEq

/-- The error message of the requests.RequestException handler. -/
def connectionErrorMsg : String := "Erro de conexão."

/-- The error message of the (KeyError, ValueError) handler, naming the
currency. -/
def invalidCurrencyMsg (currency : String) : String :=
  "Moeda \x27" ++ currency ++ "\x27 inválida."

/-- ApiService._fetch_rate.  A transport failure is caught as
requests.RequestException; response.raise_for_status() raises HTTPError
(also a RequestException) exactly for status codes 400-599.  An undecodable
body makes response.json() raise: in requests since 2.27 this is
requests.exceptions.JSONDecodeError, which subclasses RequestException and
is caught by the first handler with the connection-error message, while in
older requests it is a plain ValueError caught by the second handler with
the invalid-currency message; the repository pins no requests version, so
the flag jsonErrorIsRequestException keeps both behaviours.  Then
float(data[currency + "BRL"]["bid"]) runs, its KeyError or ValueError being
caught with the invalid-currency message, while a TypeError from an
unexpected JSON shape is caught by no handler: the daemon thread dies having
produced no effect.  On success the rate is stored in rate_cache first and
the success message is put on the queue second. -/
def fetch_rate (jsonErrorIsRequestException : Bool) (currency : String) (http : HttpResult) :
    List FetchEffect :=
  match http with
  | .transportError => [FetchEffect.put (QueueMsg.error connectionErrorMsg)]
  | .response status body =>
    if 400 ≤ status ∧ status < 600 then
      [FetchEffect.put (QueueMsg.error connectionErrorMsg)]
    else
      match body with
      | none =>
        if jsonErrorIsRequestException then
          [FetchEffect.put (QueueMsg.error connectionErrorMsg)]
        else
          [FetchEffect.put (QueueMsg.error (invalidCurrencyMsg currency))]
      | some data =>
        match classify currency data with
        | Except.ok rate =>
          [FetchEffect.store currency rate, FetchEffect.put (QueueMsg.success rate)]
        | Except.error PyErr.keyError =>
          [FetchEffect.put (QueueMsg.error (invalidCurrencyMsg currency))]
        | Except.error PyErr.valueError =>
          [FetchEffect.put (QueueMsg.error (invalidCurrencyMsg currency))]
        | Except.error PyErr.typeError => []

/- General lemmas about the embedding, shared by the claim theorems. -/

/-- Exhaustive case split on a fetch trace, for either requests version:
success stores then emits, classified failures emit exactly one error
message, and the uncaught TypeError path produces the empty trace. -/
theorem fetch_rate_cases (jre : Bool) (c : String) (http : HttpResult) :
    (∃ r, fetch_rate jre c http =
        [FetchEffect.store c r, FetchEffect.put (QueueMsg.success r)]) ∨
    fetch_rate jre c http = [FetchEffect.put (QueueMsg.error connectionErrorMsg)] ∨
    fetch_rate jre c http = [FetchEffect.put (QueueMsg.error (invalidCurrencyMsg c))] ∨
    fetch_rate jre c http = [] := by
  cases http with
  | transportError => right; left; rfl
  | response st body =>
    by_cases hst : 400 ≤ st ∧ st < 600
    · right; left; simp [fetch_rate, hst]
    · cases body with
      | none =>
        cases jre with
        | true => right; left; simp [fetch_rate, hst]
        | false => right; right; left; simp [fetch_rate, hst]
      | some data =>
        cases hcl : classify c data with
        | ok r => left; exact ⟨r, by simp [fetch_rate, hst, hcl]⟩
        | error e =>
          cases e with
          | keyError => right; right; left; simp [fetch_rate, hst, hcl]
          | valueError => right; right; left; simp [fetch_rate, hst, hcl]
          | typeError => right; right; right; simp [fetch_rate, hst, hcl]

/-- Every currency of the selector list is present in the fee dictionary. -/
theorem currency_list_in_fees : ∀ m ∈ currency_list, (PAYPAL_FEES m).isSome := by decide

/-- A currency outside the selector list is absent from the fee
dictionary. -/
theorem paypal_fees_none_of_not_mem (c : String) (h : c ∉ currency_list) :
    PAYPAL_FEES c = none := by
  have h1 : ¬ (c = "USD") := fun hh => h (by rw [hh]; decide)
  have h2 : ¬ (c = "EUR") := fun hh => h (by rw [hh]; decide)
  have h3 : ¬ (c = "GBP") := fun hh => h (by rw [hh]; decide)
  have h4 : ¬ (c = "JPY") := fun hh => h (by rw [hh]; decide)
  have h5 : ¬ (c = "CAD") := fun hh => h (by rw [hh]; decide)
  have h6 : ¬ (c = "AUD") := fun hh => h (by rw [hh]; decide)
  simp [PAYPAL_FEES, h1, h2, h3, h4, h5, h6]

section ClaimTheorems

/- Batteries marks the rational operations irreducible; concrete evaluation
by the decide tactic needs them unfolded. -/
attribute [local semireducible] Rat.mul Rat.add Rat.inv Rat.sub Rat.ofScientific

/-- Every schedule the program can select keeps the percentage fee at most
100 percent and the fixed fee non-negative; hence a negative amount always
drives valor_apos_taxas below zero. -/
theorem getFees_bounds (c : String) :
    (getFees c).fee_percent ≤ 100 ∧ 0 ≤ (getFees c).fixed_fee := by
  unfold getFees PAYPAL_FEES
  split_ifs <;> decide

/-- Claim C1, counterexample.  At the claimed scenario inputs (schedule of
USD = feePercent 6.40, fixedFee 0.30, spreadPercent 3.50, amount text
1000.00, raw rate 5.00) the code computes finalLocal = 935.70 * 4.825 =
4514.7525, not the 4514.9625 the claim states, so the stated scenario value
is false. -/
theorem c1_scenario_counterexample :
    perform_calculation ("1000.00") ("USD") 5 =
      CalcOutcome.ok ⟨4514.7525, 935.70, "USD", 4.825⟩
    ∧ perform_calculation ("1000.00") ("USD") 5 ≠
      CalcOutcome.ok ⟨4514.9625, 935.70, "USD", 4.825⟩
    ∧ totalLossLocal 1000 5 4514.7525 = 485.2475
    ∧ ((4514.7525 : ℚ) = 4514.9625) = False := by
  refine ⟨by decide, by decide, by decide, by decide⟩

/-- Claim C1, amended.  For every currency of the FeeSchedule registry,
every amount text parsing to a non-negative A and every positive rate r,
the calculation returns finalLocal = max(0, A - A*(feePercent/100) -
fixedFee) * r * (1 - spreadPercent/100) and the spec-modelled
totalLossLocal equals A*r - finalLocal; in the scenario of the claim the
values are finalLocal = 4514.7525 and totalLossLocal = 485.2475 (not
4514.9625 and 485.0375). -/
theorem c1_fee_formula (moeda : String) (sched : FeeSchedule)
    (hm : PAYPAL_FEES moeda = some sched)
    (s : String) (A : ℚ) (hs : pyFloat (replaceCommaDot s) = some A)
    (hA : 0 ≤ A) (r : ℚ) (hr : 0 < r) :
    perform_calculation s moeda r = CalcOutcome.ok (calc_with_fees sched moeda A r)
    ∧ (calc_with_fees sched moeda A r).valor_final_brl =
        max 0 (A - A * (sched.fee_percent / 100) - sched.fixed_fee) * r *
          (1 - sched.spread_percent / 100)
    ∧ totalLossLocal A r ((calc_with_fees sched moeda A r).valor_final_brl) =
        A * r - max 0 (A - A * (sched.fee_percent / 100) - sched.fixed_fee) * r *
          (1 - sched.spread_percent / 100)
    ∧ perform_calculation ("1000.00") ("USD") 5 =
        CalcOutcome.ok ⟨4514.7525, 935.70, "USD", 4.825⟩
    ∧ totalLossLocal 1000 5
        ((calc_with_fees ⟨6.40, 0.30, 3.50⟩ ("USD") 1000 5).valor_final_brl) = 485.2475 := by
  have hfin : (calc_with_fees sched moeda A r).valor_final_brl =
      max 0 (A - A * (sched.fee_percent / 100) - sched.fixed_fee) * r *
        (1 - sched.spread_percent / 100) := by
    simp only [calc_with_fees]
    ring
  refine ⟨?_, hfin, ?_, by decide, by decide⟩
  · simp [perform_calculation, hs, getFees, hm]
  · simp [totalLossLocal, hfin]

/-- Claim C1, witness: the theorem applied at the scenario inputs. -/
theorem c1_witness :
    perform_calculation ("1000.00") ("USD") 5 =
      CalcOutcome.ok ⟨4514.7525, 935.70, "USD", 4.825⟩ :=
  (c1_fee_formula ("USD") ⟨6.40, 0.30, 3.50⟩ (by decide) ("1000.00") 1000 (by decide)
    (by norm_num) 5 (by norm_num)).2.2.2.1

/-- Claim C2, counterexample.  The claim fails twice over.  On the
malformed amount text 12.3.4 the calculate action still calls the rate
service: with an empty cache it emits the loading message and spawns a
background network fetch.  And the amount text -100, which does not parse
as a non-negative decimal number (it is negative, reachable through the
sign-toggle keypad key), is accepted by float() and produces a CalculationResult
(net amount clamped to zero) with no InvalidInputError at all. -/
theorem c2_rate_call_counterexample :
    pyFloat (replaceCommaDot ("12.3.4")) = none
    ∧ handle_calculate ⟨"12.3.4", "USD", fun _ => none⟩ =
        ⟨[QueueMsg.loading ("USD")], true⟩
    ∧ (handle_calculate ⟨"12.3.4", "USD", fun _ => none⟩).fetchSpawned = true
    ∧ pyFloat (replaceCommaDot ("-100")) = some (-100)
    ∧ ((-100 : ℚ) < 0)
    ∧ perform_calculation ("-100") ("USD") 5 = CalcOutcome.ok ⟨0, 0, "USD", 4.825⟩ := by
  refine ⟨by decide, rfl, rfl, by decide, by norm_num, by decide⟩

/-- Claim C2, amended.  Over the calculator's plain float alphabet, for
every amount text that float() rejects (e.g. 12.3.4) the calculation
signals the invalid-input message and produces no CalculationResult - but
the controller issues the RateService request before any parsing, so a
calculate action still calls the rate service (on a cache miss it emits
loading and spawns a network fetch).  An amount text parsing as a negative
number is not treated as invalid: it yields a CalculationResult whose net
amount is clamped to zero.  Texts naming float() specials (inf, nan) and
underscored digit groups lie outside the modelled alphabet. -/
theorem c2_invalid_input :
    (∀ s, pyFloat (replaceCommaDot s) = none → plainFloatText (replaceCommaDot s) = true →
      (∀ moeda rate, perform_calculation s moeda rate = CalcOutcome.invalid invalidInputMsg)
      ∧ (∀ (cache : String → Option ℚ) moeda, moeda ≠ "BRL" → cache moeda = none →
          handle_calculate ⟨s, moeda, cache⟩ = ⟨[QueueMsg.loading moeda], true⟩))
    ∧ (∀ s A, pyFloat (replaceCommaDot s) = some A → A < 0 → ∀ moeda rate,
        perform_calculation s moeda rate =
          CalcOutcome.ok ⟨0, 0, moeda, rate * (1 - (getFees moeda).spread_percent / 100)⟩) := by
  constructor
  · intro s hs _
    constructor
    · intro moeda rate
      simp [perform_calculation, hs]
    · intro cache moeda hne hc
      simp [handle_calculate, get_exchange_rate, hne, hc]
  · intro s A hs hA moeda rate
    have hb := getFees_bounds moeda
    have hle : A - A * ((getFees moeda).fee_percent / 100) - (getFees moeda).fixed_fee ≤ 0 := by
      have h1 : A * (1 - (getFees moeda).fee_percent / 100) ≤ 0 :=
        mul_nonpos_of_nonpos_of_nonneg hA.le (by linarith [hb.1])
      nlinarith [hb.2]
    have hmax :
        max 0 (A - A * ((getFees moeda).fee_percent / 100) - (getFees moeda).fixed_fee) = 0 :=
      max_eq_left hle
    simp [perform_calculation, hs, calc_with_fees, hmax]

/-- Claim C2, witness: the theorem applied to the malformed text 12.3.4 and
to the negative text -100. -/
theorem c2_witness :
    (perform_calculation ("12.3.4") ("USD") 5 = CalcOutcome.invalid invalidInputMsg
      ∧ handle_calculate ⟨"12.3.4", "USD", fun _ => none⟩ =
          ⟨[QueueMsg.loading ("USD")], true⟩)
    ∧ perform_calculation ("-100") ("USD") 5 =
        CalcOutcome.ok ⟨0, 0, "USD", 5 * (1 - (getFees ("USD")).spread_percent / 100)⟩ :=
  ⟨⟨(c2_invalid_input.1 ("12.3.4") (by decide) (by decide)).1 ("USD") 5,
    (c2_invalid_input.1 ("12.3.4") (by decide) (by decide)).2 (fun _ => none) ("USD")
      (by decide) rfl⟩,
   c2_invalid_input.2 ("-100") (-100) (by decide) (by norm_num) ("USD") 5⟩

/-- Claim C3, counterexample.  A schedule with the three fields 0, 0, 200
(all non-negative) drives the effective rate negative: with amount 1 and
rate 1 the code computes finalLocal = -1 < 0, so non-negative fields alone
do not keep finalLocal non-negative. -/
theorem c3_negative_counterexample :
    (0:ℚ) ≤ 0 ∧ (0:ℚ) ≤ 200 ∧ (0:ℚ) ≤ 1 ∧ (0:ℚ) < 1
    ∧ (calc_with_fees ⟨0, 0, 200⟩ ("XTS") 1 1).valor_final_brl = -1
    ∧ (calc_with_fees ⟨0, 0, 200⟩ ("XTS") 1 1).valor_final_brl < 0 := by
  refine ⟨by norm_num, by norm_num, by norm_num, by norm_num, by decide, by decide⟩

/-- Claim C3, amended.  For every non-negative amount, every schedule whose
three fields are non-negative and whose spreadPercent is at most 100, and
every positive rate, finalLocal is non-negative; fees exceeding the amount
clamp the net amount to zero; and every schedule the program can actually
select (registry rows and the default) satisfies these bounds. -/
theorem c3_final_nonneg (fees : FeeSchedule) (hf : 0 ≤ fees.fee_percent)
    (hx : 0 ≤ fees.fixed_fee) (hs0 : 0 ≤ fees.spread_percent)
    (hs1 : fees.spread_percent ≤ 100)
    (moeda : String) (valor : ℚ) (hv : 0 ≤ valor) (rate : ℚ) (hr : 0 < rate) :
    0 ≤ (calc_with_fees fees moeda valor rate).valor_final_brl
    ∧ (valor - valor * (fees.fee_percent / 100) - fees.fixed_fee ≤ 0 →
        (calc_with_fees fees moeda valor rate).valor_liquido = 0)
    ∧ (∀ c, 0 ≤ (getFees c).fee_percent ∧ 0 ≤ (getFees c).fixed_fee ∧
        0 ≤ (getFees c).spread_percent ∧ (getFees c).spread_percent ≤ 100) := by
  refine ⟨?_, ?_, ?_⟩
  · simp only [calc_with_fees]
    apply mul_nonneg (le_max_left 0 _)
    apply mul_nonneg hr.le
    have : fees.spread_percent / 100 ≤ 1 := by linarith
    linarith
  · intro h
    simp only [calc_with_fees]
    exact max_eq_left h
  · intro c
    unfold getFees PAYPAL_FEES
    split_ifs <;> decide

/-- Claim C3, witness: the theorem applied to the default schedule with
amount 10 and rate 2. -/
theorem c3_witness :
    0 ≤ (calc_with_fees DEFAULT_FEES ("XTS") 10 2).valor_final_brl :=
  (c3_final_nonneg DEFAULT_FEES (by decide) (by decide) (by decide) (by decide)
    ("XTS") 10 (by norm_num) 2 (by norm_num)).1

/-- Claim C4.  If a call of get_exchange_rate for a non-local currency
emitted a Success carrying rate r, the cache must hold r; since the
synchronous call never writes the cache, a second call on the same cache
(no intervening cache write) is the same application and is fully served
from the cache: it emits the identical Success and spawns no network
fetch. -/
theorem c4_cached_idempotent (cache : String → Option ℚ) (c : String)
    (hne : c ≠ "BRL") (r : ℚ)
    (hfirst : (get_exchange_rate cache c).emitted = [QueueMsg.success r]) :
    cache c = some r
    ∧ get_exchange_rate cache c = ⟨[QueueMsg.success r], false⟩ := by
  cases hc : cache c with
  | none => simp [get_exchange_rate, hne, hc] at hfirst
  | some q =>
    simp only [get_exchange_rate, hne, if_neg hne, hc] at hfirst ⊢
    simp at hfirst
    subst hfirst
    exact ⟨rfl, rfl⟩

/-- Claim C4, witness: a cache holding USD at 5.25 answers both calls from
the cache with no fetch. -/
theorem c4_witness :
    (fun x => if x = "USD" then some (5.25:ℚ) else none) ("USD") = some 5.25
    ∧ get_exchange_rate (fun x => if x = "USD" then some 5.25 else none) ("USD") =
        ⟨[QueueMsg.success 5.25], false⟩ :=
  c4_cached_idempotent (fun x => if x = "USD" then some 5.25 else none) ("USD")
    (by decide) 5.25 (by decide)

/-- Claim C5.  For the local currency BRL, get_exchange_rate emits Success
with rate exactly 1.0 and spawns no network fetch, whatever the cache
contains. -/
theorem c5_local_short_circuit (cache : String → Option ℚ) :
    get_exchange_rate cache ("BRL") = ⟨[QueueMsg.success 1.0], false⟩ := rfl

/-- Claim C6, counterexample.  A served response whose bid field is JSON
null makes float() raise TypeError, which no handler catches: the fetch
thread dies with no queue message at all, under either requests version, so
a failed fetch is not always classified as ConnectionError or
InvalidCurrencyError. -/
theorem c6_typeerror_counterexample :
    fetch_rate true ("USD")
        (HttpResult.response 200 (some (Json.obj [("USDBRL", Json.obj [("bid", Json.null)])]))) = []
    ∧ fetch_rate false ("USD")
        (HttpResult.response 200 (some (Json.obj [("USDBRL", Json.obj [("bid", Json.null)])]))) = []
    ∧ ([] : List FetchEffect) ≠ [FetchEffect.put (QueueMsg.error connectionErrorMsg)]
    ∧ ([] : List FetchEffect) ≠ [FetchEffect.put (QueueMsg.error (invalidCurrencyMsg ("USD")))] := by
  refine ⟨by decide, by decide, by decide, by decide⟩

/-- Claim C6, amended.  A fetch completes in exactly one of four ways:
ConnectionError for a transport failure, timeout, or HTTP status 400-599
(raise_for_status raises for client and server errors only, not for every
non-2xx status); InvalidCurrencyError naming the currency when a served
body lacks the quote key or its bid is a string that does not parse; for a
served body that is not decodable JSON, whichever of the two errors the
installed requests version dictates (ConnectionError under requests >= 2.27,
where JSONDecodeError subclasses RequestException; InvalidCurrencyError
under older versions, where it is a plain ValueError - the repository pins
no version); success, storing and emitting the rate; or - when the quote
entry or bid has an unexpected JSON type - an uncaught TypeError producing
no outcome at all. -/
theorem c6_error_classification (jre : Bool) (c : String) (http : HttpResult) :
    (http = HttpResult.transportError →
        fetch_rate jre c http = [FetchEffect.put (QueueMsg.error connectionErrorMsg)])
    ∧ (∀ st body, http = HttpResult.response st body → 400 ≤ st → st < 600 →
        fetch_rate jre c http = [FetchEffect.put (QueueMsg.error connectionErrorMsg)])
    ∧ (∀ st, http = HttpResult.response st none → ¬ (400 ≤ st ∧ st < 600) →
        fetch_rate jre c http =
          [FetchEffect.put (QueueMsg.error
            (if jre then connectionErrorMsg else invalidCurrencyMsg c))])
    ∧ (∀ st data, http = HttpResult.response st (some data) → ¬ (400 ≤ st ∧ st < 600) →
        (classify c data = Except.error PyErr.keyError ∨
          classify c data = Except.error PyErr.valueError) →
        fetch_rate jre c http = [FetchEffect.put (QueueMsg.error (invalidCurrencyMsg c))])
    ∧ ((∃ r, fetch_rate jre c http =
          [FetchEffect.store c r, FetchEffect.put (QueueMsg.success r)]) ∨
        fetch_rate jre c http = [FetchEffect.put (QueueMsg.error connectionErrorMsg)] ∨
        fetch_rate jre c http = [FetchEffect.put (QueueMsg.error (invalidCurrencyMsg c))] ∨
        fetch_rate jre c http = []) := by
  refine ⟨?_, ?_, ?_, ?_, fetch_rate_cases jre c http⟩
  · intro h; subst h; rfl
  · intro st body h h1 h2; subst h; simp [fetch_rate, h1, h2]
  · intro st h h1; subst h; cases jre <;> simp [fetch_rate, h1]
  · intro st data h h1 h2; subst h
    rcases h2 with h2 | h2 <;> simp [fetch_rate, h1, h2]

/-- Claim C6, witness: a transport failure is classified as
ConnectionError. -/
theorem c6_witness :
    fetch_rate true ("USD") HttpResult.transportError =
      [FetchEffect.put (QueueMsg.error connectionErrorMsg)] :=
  (c6_error_classification true ("USD") HttpResult.transportError).1 rfl

/-- Claim C7.  Under either requests version, a write to rate_cache appears
in a fetch trace only for the fetched currency and only together with the
Success emission: every failing fetch (connection error, invalid currency,
uncaught TypeError) leaves the cache untouched. -/
theorem c7_store_only_on_success (jre : Bool) (c : String) (http : HttpResult)
    (cur : String) (r : ℚ)
    (h : FetchEffect.store cur r ∈ fetch_rate jre c http) :
    cur = c
    ∧ fetch_rate jre c http = [FetchEffect.store c r, FetchEffect.put (QueueMsg.success r)] := by
  rcases fetch_rate_cases jre c http with ⟨r2, hr⟩ | hr | hr | hr <;> rw [hr] at h <;> simp at h
  obtain ⟨h1, h2⟩ := h
  subst h1
  subst h2
  exact ⟨rfl, hr⟩

/-- Claim C7, witness: a successful fetch of USD at bid 5.25 stores exactly
that rate for that currency. -/
theorem c7_witness :
    ("USD" : String) = "USD"
    ∧ fetch_rate true ("USD")
        (HttpResult.response 200 (some (Json.obj [("USDBRL", Json.obj [("bid", Json.str "5.25")])]))) =
      [FetchEffect.store ("USD") 5.25, FetchEffect.put (QueueMsg.success 5.25)] :=
  c7_store_only_on_success true ("USD")
    (HttpResult.response 200 (some (Json.obj [("USDBRL", Json.obj [("bid", Json.str "5.25")])])))
    ("USD") 5.25 (by decide)

/-- Claim C8, counterexample.  A served response whose quote entry is a
JSON string makes the bid subscription raise TypeError, which no handler
catches: the fetch fails yet no Error event is emitted, contradicting the
claim that a failure always emits an Error event. -/
theorem c8_no_error_event_counterexample :
    fetch_rate true ("EUR")
        (HttpResult.response 200 (some (Json.obj [("EURBRL", Json.str "5.0")]))) = []
    ∧ fetch_rate false ("EUR")
        (HttpResult.response 200 (some (Json.obj [("EURBRL", Json.str "5.0")]))) = []
    ∧ FetchEffect.put (QueueMsg.error (invalidCurrencyMsg ("EUR"))) ∉
        fetch_rate true ("EUR")
          (HttpResult.response 200 (some (Json.obj [("EURBRL", Json.str "5.0")])))
    ∧ FetchEffect.put (QueueMsg.error connectionErrorMsg) ∉
        fetch_rate true ("EUR")
          (HttpResult.response 200 (some (Json.obj [("EURBRL", Json.str "5.0")]))) := by
  refine ⟨by decide, by decide, by decide, by decide⟩

/-- Claim C8, amended.  On a cache miss for a non-local currency the service
emits Loading synchronously and spawns the background fetch; when the fetch
succeeds the rate is stored in the cache and only then the Success event is
emitted; a classified failure emits exactly one Error event (under either
requests version), but a quote or bid field of unexpected JSON type dies
with no event at all. -/
theorem c8_miss_protocol :
    (∀ (cache : String → Option ℚ) (c : String), c ≠ "BRL" → cache c = none →
        get_exchange_rate cache c = ⟨[QueueMsg.loading c], true⟩)
    ∧ (∀ (jre : Bool) (c : String) (http : HttpResult) (r : ℚ),
        FetchEffect.put (QueueMsg.success r) ∈ fetch_rate jre c http →
        fetch_rate jre c http = [FetchEffect.store c r, FetchEffect.put (QueueMsg.success r)])
    ∧ (∀ (jre : Bool) (c : String) (http : HttpResult),
        (∃ r, fetch_rate jre c http =
            [FetchEffect.store c r, FetchEffect.put (QueueMsg.success r)]) ∨
        (∃ m, fetch_rate jre c http = [FetchEffect.put (QueueMsg.error m)]) ∨
        fetch_rate jre c http = []) := by
  refine ⟨?_, ?_, ?_⟩
  · intro cache c hne hc
    simp [get_exchange_rate, hne, hc]
  · intro jre c http r h
    rcases fetch_rate_cases jre c http with ⟨r2, hr⟩ | hr | hr | hr <;> rw [hr] at h <;> simp at h
    subst h
    exact hr
  · intro jre c http
    rcases fetch_rate_cases jre c http with ⟨r2, hr⟩ | hr | hr | hr
    · exact Or.inl ⟨r2, hr⟩
    · exact Or.inr (Or.inl ⟨_, hr⟩)
    · exact Or.inr (Or.inl ⟨_, hr⟩)
    · exact Or.inr (Or.inr hr)

/-- Claim C8, witness: a cache miss for USD emits loading and spawns the
fetch. -/
theorem c8_witness :
    get_exchange_rate (fun _ => none) ("USD") = ⟨[QueueMsg.loading ("USD")], true⟩ :=
  c8_miss_protocol.1 (fun _ => none) ("USD") (by decide) rfl

/-- Claim C9.  Advancing the currency selection N times, N being the length
of the ordered currency list, returns every starting position to itself
(the cycle wraps around). -/
theorem c9_cycle_identity :
    ∀ i, i < currency_list.length →
      requestCurrencyCycle^[currency_list.length] i = i := by decide

/-- Claim C9, witness: six steps from position 0 return to position 0. -/
theorem c9_witness :
    0 < currency_list.length ∧ requestCurrencyCycle^[currency_list.length] 0 = 0 :=
  ⟨by decide, c9_cycle_identity 0 (by decide)⟩

/-- Claim C10.  Every currency code outside the six listed ones falls back
to DEFAULT_FEES = (feePercent 6.40, fixedFee 0.30, spreadPercent 4.50), and
its 4.50 spread is strictly higher than the 3.50 spread of every explicitly
listed currency. -/
theorem c10_default_schedule (c : String) (h : c ∉ currency_list) :
    getFees c = DEFAULT_FEES
    ∧ DEFAULT_FEES = ⟨6.40, 0.30, 4.50⟩
    ∧ (∀ m ∈ currency_list, (getFees m).spread_percent = 3.50)
    ∧ (∀ m ∈ currency_list, (getFees m).spread_percent < DEFAULT_FEES.spread_percent) := by
  refine ⟨?_, by decide, by decide, by decide⟩
  simp [getFees, paypal_fees_none_of_not_mem c h]

/-- Claim C10, witness: the unlisted code CHF is charged the default
schedule. -/
theorem c10_witness : getFees ("CHF") = DEFAULT_FEES :=
  (c10_default_schedule ("CHF") (by decide)).1

end ClaimTheorems
